import Mathlib

/-!
Shallow embedding of the comparison dashboard logic in
`Local_LLM vs Cloud_Based_LLM/ui_comparison.py`.

The pure parts (prompt construction, the static metrics tables) are
translated directly.  The two adapter functions wrap a network call in a
try/except; the network call is modelled as an abstract transport
function returning `Except String α` (the error string models the
Python exception description `str(e)`), and the wall-clock duration of
the call is an explicit parameter `dur` (modelling
`time.time() - start_time`).  The submit handler of the third tab is
modelled as a function producing an event trace plus the pair of
results, with an explicit clock threaded through the sequential calls.
-/

namespace UiComparison

/-- Prompt construction, from create_prompt in ui_comparison.py: the
fixed instructional template with the question embedded verbatim. -/
def create_prompt (question : String) : String :=
  "Solve this mathematics question step by step.\n\n    QUESTION:\n    "
    ++ question ++
  "\n\n    REQUIREMENTS:\n    1. Analyze the question carefully\n    2. Show ALL mathematical steps clearly\n    3. Calculate values precisely\n    4. Evaluate each step systematically\n\n    Your complete solution:"

/-- Message of one choice of a chat-completion response. -/
structure CloudMessage where
  content : String
deriving DecidableEq

/-- One choice of a chat-completion response. -/
structure CloudChoice where
  message : CloudMessage
deriving DecidableEq

/-- Response of the hosted chat-completion endpoint: a list of choices. -/
structure CloudResponse where
  choices : List CloudChoice
deriving DecidableEq

/-- Request sent by get_gpt4_response: the keyword arguments of
client.chat.completions.create.  Messages are (role, content) pairs. -/
structure CloudRequest where
  model : String
  messages : List (String × String)
  temperature : ℚ
  max_tokens : Nat
deriving DecidableEq

/-- Generation options passed by get_tinyllama_response to ollama.generate. -/
structure LocalOptions where
  num_predict : Nat
  top_k : Nat
  top_p : ℚ
  repeat_penalty : ℚ
  temperature : ℚ
  stop : List String
deriving DecidableEq

/-- Request sent by get_tinyllama_response: the keyword arguments of
ollama.generate. -/
structure LocalRequest where
  model : String
  prompt : String
  options : LocalOptions
deriving DecidableEq

/-- Response of the local inference process: the generated text field. -/
structure OllamaResponse where
  response : String
deriving DecidableEq

/-- Cloud adapter, from get_gpt4_response in ui_comparison.py.
The transport models client.chat.completions.create: it returns either a
response object or the description of a raised exception; dur models the
wall-clock time the call took.  On success the answer text is the first
choice of the response (an empty choice list raises an IndexError inside
the same try block); on any exception the adapter returns the pair
("Error: " ++ description, 0). -/
def get_gpt4_response (transport : CloudRequest → Except String CloudResponse)
    (dur : Nat) (prompt : String) : String × Nat :=
  match transport { model := "gpt-4o",
                    messages := [("user", prompt)],
                    temperature := 0,
                    max_tokens := 2000 } with
  | Except.ok response =>
      match response.choices.head? with
      | some choice => (choice.message.content, dur)
      | none => ("Error: list index out of range", 0)
  | Except.error e => ("Error: " ++ e, 0)

/-- Local adapter, from get_tinyllama_response in ui_comparison.py.
The transport models ollama.generate; dur models the wall-clock time the
call took.  On any exception the adapter returns the pair
("Error: " ++ description, 0). -/
def get_tinyllama_response (transport : LocalRequest → Except String OllamaResponse)
    (dur : Nat) (prompt : String) : String × Nat :=
  match transport { model := "tinyllama",
                    prompt := prompt,
                    options := { num_predict := 1000,
                                 top_k := 20,
                                 top_p := 0.9,
                                 repeat_penalty := 1.1,
                                 temperature := 0.7,
                                 stop := ["Question:", "QUESTION:", "\n\n"] } } with
  | Except.ok r => (r.response, dur)
  | Except.error e => ("Error: " ++ e, 0)

/-- One row of a precomputed metrics table. -/
structure MetricsRow where
  metric : String
  gpt4 : ℚ
  tinyllama : ℚ
  difference : ℚ
deriving DecidableEq

/-- Static table abstract_algebra_data from ui_comparison.py. -/
def abstract_algebra_data : List MetricsRow :=
  [⟨"Correctness", 0.83, 0.00, 0.83⟩,
   ⟨"Mathematical Reasoning", 0.40, 0.10, 0.30⟩,
   ⟨"Solution Completeness", 0.425, 0.00, 0.425⟩,
   ⟨"Explanation Quality", 0.65, 0.10, 0.55⟩,
   ⟨"Coherence", 0.675, 0.00, 0.675⟩,
   ⟨"Time Efficiency", 0.90, 0.30, 0.60⟩,
   ⟨"Final Score", 0.71, 0.05, 0.66⟩]

/-- Static table college_math_data from ui_comparison.py. -/
def college_math_data : List MetricsRow :=
  [⟨"Correctness", 0.85, 0.35, 0.50⟩,
   ⟨"Mathematical Reasoning", 0.70, 0.05, 0.65⟩,
   ⟨"Solution Completeness", 0.45, 0.05, 0.40⟩,
   ⟨"Explanation Quality", 0.50, 0.10, 0.40⟩,
   ⟨"Coherence", 0.45, 0.05, 0.40⟩,
   ⟨"Time Efficiency", 0.85, 0.70, 0.15⟩,
   ⟨"Final Score", 0.74, 0.18, 0.56⟩]

/-- Static table elementary_math_data from ui_comparison.py. -/
def elementary_math_data : List MetricsRow :=
  [⟨"Correctness", 0.80, 0.30, 0.50⟩,
   ⟨"Mathematical Reasoning", 0.55, 0.05, 0.50⟩,
   ⟨"Solution Completeness", 0.35, 0.02, 0.33⟩,
   ⟨"Explanation Quality", 0.40, 0.05, 0.35⟩,
   ⟨"Coherence", 0.30, 0.02, 0.28⟩,
   ⟨"Time Efficiency", 0.90, 0.65, 0.25⟩,
   ⟨"Final Score", 0.59, 0.19, 0.40⟩]

/-- Static table high_school_math_data from ui_comparison.py. -/
def high_school_math_data : List MetricsRow :=
  [⟨"Correctness", 0.85, 0.40, 0.45⟩,
   ⟨"Mathematical Reasoning", 0.75, 0.10, 0.65⟩,
   ⟨"Solution Completeness", 0.40, 0.05, 0.35⟩,
   ⟨"Explanation Quality", 0.45, 0.08, 0.37⟩,
   ⟨"Coherence", 0.35, 0.05, 0.30⟩,
   ⟨"Time Efficiency", 0.85, 0.65, 0.20⟩,
   ⟨"Final Score", 0.76, 0.26, 0.50⟩]

/-- Static table overall_metrics from ui_comparison.py. -/
def overall_metrics : List MetricsRow :=
  [⟨"Correctness", 0.833, 0.317, 0.517⟩,
   ⟨"Mathematical Reasoning", 0.628, 0.047, 0.581⟩,
   ⟨"Solution Completeness", 0.388, 0.029, 0.360⟩,
   ⟨"Explanation Quality", 0.449, 0.055, 0.393⟩,
   ⟨"Coherence", 0.363, 0.032, 0.331⟩,
   ⟨"Time Efficiency", 0.880, 0.658, 0.222⟩,
   ⟨"Final Score", 0.684, 0.183, 0.501⟩]

/-- Observable events of one submission of the third tab, for stating
ordering properties of the submit handler. -/
inductive Event where
  | promptBuilt (prompt : String)
  | cloudStart (t : Nat)
  | cloudEnd (t : Nat)
  | localStart (t : Nat)
  | localEnd (t : Nat)
  | warningShown
deriving DecidableEq

/-- Predicate picking out prompt-construction events. -/
def Event.isPromptBuilt : Event → Bool
  | Event.promptBuilt _ => true
  | _ => false

/-- Submit handler of the third tab (the body of the Submit Question
button), from ui_comparison.py lines 257 to 275.  The Python guard
if user_question is string truthiness, i.e. user_question ≠ "".  When it
holds, the handler builds one prompt, calls the cloud adapter, then the
local adapter, strictly in that order; the clock now advances by the
wall-clock duration of each call.  Otherwise it shows a warning and
calls nothing.  The returned pair is the event trace and, when the
guard holds, the two displayed results in (cloud, local) order. -/
def submit_handler (ct : CloudRequest → Except String CloudResponse)
    (lt : LocalRequest → Except String OllamaResponse)
    (cloudDur localDur : Nat) (now : Nat) (user_question : String) :
    List Event × Option ((String × Nat) × (String × Nat)) :=
  if user_question ≠ "" then
    let prompt := create_prompt user_question
    let cloudRes := get_gpt4_response ct cloudDur prompt
    let localRes := get_tinyllama_response lt localDur prompt
    ([Event.promptBuilt prompt,
      Event.cloudStart now, Event.cloudEnd (now + cloudDur),
      Event.localStart (now + cloudDur), Event.localEnd (now + cloudDur + localDur)],
     some (cloudRes, localRes))
  else
    ([Event.warningShown], none)

/-- Outcome handling of the cloud adapter: how get_gpt4_response turns the
result of its transport call into the returned pair.  Stated separately from
the adapter so that the C7 theorem can say at which request the transport is
consulted. -/
def cloudOutcome (dur : Nat) : Except String CloudResponse → String × Nat
  | Except.ok response =>
      match response.choices.head? with
      | some choice => (choice.message.content, dur)
      | none => ("Error: list index out of range", 0)
  | Except.error e => ("Error: " ++ e, 0)

/-- Outcome handling of the local adapter: how get_tinyllama_response turns
the result of its transport call into the returned pair. -/
def localOutcome (dur : Nat) : Except String OllamaResponse → String × Nat
  | Except.ok r => (r.response, dur)
  | Except.error e => ("Error: " ++ e, 0)

/-- Following the spec wording, for comparison with the request built inside
get_gpt4_response: one user-role message containing the prompt, temperature 0,
maximum output tokens 2000, the fixed model identifier. -/
def specCloudRequest (prompt : String) : CloudRequest :=
  { model := "gpt-4o",
    messages := [("user", prompt)],
    temperature := 0,
    max_tokens := 2000 }

/-- Following the spec wording, for comparison with the request built inside
get_tinyllama_response: the fixed small model name, the prompt, and the fixed
generation options — maximum output tokens 1000, top-k 20, top-p 0.9,
repetition penalty 1.1, temperature 0.7, and the three stop sequences. -/
def specLocalRequest (prompt : String) : LocalRequest :=
  { model := "tinyllama",
    prompt := prompt,
    options := { num_predict := 1000,
                 top_k := 20,
                 top_p := 0.9,
                 repeat_penalty := 1.1,
                 temperature := 0.7,
                 stop := ["Question:", "QUESTION:", "\n\n"] } }

/-- C1: for every prompt, if the transport call inside the cloud adapter or
the local adapter raises an exception (modelled: every transport call returns
an error description), the adapter does not propagate it: it returns the text
"Error: " followed by the description, paired with elapsed time 0. -/
theorem c1_adapter_failure_containment
    (ct : CloudRequest → Except String CloudResponse)
    (lt : LocalRequest → Except String OllamaResponse)
    (cd ld : Nat) (prompt : String) (ec el : String)
    (hc : ∀ r, ct r = Except.error ec) (hl : ∀ r, lt r = Except.error el) :
    get_gpt4_response ct cd prompt = ("Error: " ++ ec, 0) ∧
    get_tinyllama_response lt ld prompt = ("Error: " ++ el, 0) := by
  constructor
  · unfold get_gpt4_response
    rw [hc]
  · unfold get_tinyllama_response
    rw [hl]

/-- Witness for C1: concrete failing transports for both adapters. -/
theorem c1_witness :
    get_gpt4_response (fun _ => Except.error "connection timed out") 5 "What is 2+2?"
        = ("Error: " ++ "connection timed out", 0) ∧
    get_tinyllama_response (fun _ => Except.error "model not found") 3 "What is 2+2?"
        = ("Error: " ++ "model not found", 0) :=
  c1_adapter_failure_containment
    (fun _ => Except.error "connection timed out")
    (fun _ => Except.error "model not found")
    5 3 "What is 2+2?" "connection timed out" "model not found"
    (fun _ => rfl) (fun _ => rfl)

/-- C2 counterexample: the claim fails as stated — in the overall table the
Correctness row has Difference 0.517 while GPT4 minus TinyLlama is
0.833 - 0.317 = 0.516, off by 1/1000, beyond the tolerance 1e-6. -/
theorem c2_counterexample :
    ¬ (∀ row ∈ abstract_algebra_data ++ college_math_data ++ elementary_math_data
          ++ high_school_math_data ++ overall_metrics,
        |row.difference - (row.gpt4 - row.tinyllama)| ≤ 1/1000000) := by
  intro h
  have hmem : (⟨"Correctness", 0.833, 0.317, 0.517⟩ : MetricsRow) ∈
      abstract_algebra_data ++ college_math_data ++ elementary_math_data
        ++ high_school_math_data ++ overall_metrics :=
    List.mem_append_right _ (by simp [overall_metrics])
  have h2 := h _ hmem
  norm_num [abs_le] at h2

/-- C2 amended: for every row of the four subject tables the Difference value
equals the GPT4 score minus the TinyLlama score within 1e-6 (in fact exactly);
for the overall table the identity only holds within tolerance 1e-3, three of
its rows being off by exactly 1e-3. -/
theorem c2_static_table_invariant :
    (∀ row ∈ abstract_algebra_data,
      |row.difference - (row.gpt4 - row.tinyllama)| ≤ 1/1000000) ∧
    (∀ row ∈ college_math_data,
      |row.difference - (row.gpt4 - row.tinyllama)| ≤ 1/1000000) ∧
    (∀ row ∈ elementary_math_data,
      |row.difference - (row.gpt4 - row.tinyllama)| ≤ 1/1000000) ∧
    (∀ row ∈ high_school_math_data,
      |row.difference - (row.gpt4 - row.tinyllama)| ≤ 1/1000000) ∧
    (∀ row ∈ overall_metrics,
      |row.difference - (row.gpt4 - row.tinyllama)| ≤ 1/1000) := by
  refine ⟨?_, ?_, ?_, ?_, ?_⟩ <;>
    · intro row hrow
      fin_cases hrow <;> norm_num [abs_le]

/-- Witness for C2 amended: the first row of the first subject table and the
first row of the overall table. -/
theorem c2_witness :
    ((⟨"Correctness", 0.83, 0.00, 0.83⟩ : MetricsRow) ∈ abstract_algebra_data ∧
      |(0.83 : ℚ) - (0.83 - 0.00)| ≤ 1/1000000) ∧
    ((⟨"Correctness", 0.833, 0.317, 0.517⟩ : MetricsRow) ∈ overall_metrics ∧
      |(0.517 : ℚ) - (0.833 - 0.317)| ≤ 1/1000) := by
  refine ⟨⟨?_, ?_⟩, ⟨?_, ?_⟩⟩
  · simp [abstract_algebra_data]
  · exact c2_static_table_invariant.1 ⟨"Correctness", 0.83, 0.00, 0.83⟩
      (by simp [abstract_algebra_data])
  · simp [overall_metrics]
  · exact c2_static_table_invariant.2.2.2.2 ⟨"Correctness", 0.833, 0.317, 0.517⟩
      (by simp [overall_metrics])

/-- C3: for every nonempty question, create_prompt is pure and deterministic
— two calls with the same question yield identical output — and the output
contains the question verbatim as a substring of its character data. -/
theorem c3_prompt_determinism (q : String) (_hq : q ≠ "") :
    create_prompt q = create_prompt q ∧ q.data <:+: (create_prompt q).data := by
  refine ⟨rfl, ?_⟩
  refine ⟨("Solve this mathematics question step by step.\n\n    QUESTION:\n    ").data,
    ("\n\n    REQUIREMENTS:\n    1. Analyze the question carefully\n    2. Show ALL mathematical steps clearly\n    3. Calculate values precisely\n    4. Evaluate each step systematically\n\n    Your complete solution:").data,
    ?_⟩
  simp [create_prompt, String.data_append]

/-- Witness for C3: the concrete question is nonempty and is contained
verbatim in the built prompt. -/
theorem c3_witness :
    ("What is 2+2?" : String) ≠ "" ∧
    (create_prompt "What is 2+2?" = create_prompt "What is 2+2?" ∧
      ("What is 2+2?" : String).data <:+: (create_prompt "What is 2+2?").data) :=
  ⟨by decide, c3_prompt_determinism "What is 2+2?" (by decide)⟩

/-- C4: for every submitted nonempty question the two adapter invocations are
strictly sequential: the trace shows the local call starting exactly when the
cloud call ends (at clock now + cd), and the results are produced in
(cloud, local) order. -/
theorem c4_sequential_invocation
    (ct : CloudRequest → Except String CloudResponse)
    (lt : LocalRequest → Except String OllamaResponse)
    (cd ld now : Nat) (q : String) (hq : q ≠ "") :
    (submit_handler ct lt cd ld now q).1 =
      [Event.promptBuilt (create_prompt q),
       Event.cloudStart now, Event.cloudEnd (now + cd),
       Event.localStart (now + cd), Event.localEnd (now + cd + ld)] ∧
    (submit_handler ct lt cd ld now q).2 =
      some (get_gpt4_response ct cd (create_prompt q),
            get_tinyllama_response lt ld (create_prompt q)) := by
  simp [submit_handler, hq]

/-- Witness for C4: a concrete run with failing transports, durations 4 and 6,
clock starting at 10. -/
theorem c4_witness :
    ("2+2" : String) ≠ "" ∧
    ((submit_handler (fun _ => Except.error "cloud down")
        (fun _ => Except.error "local down") 4 6 10 "2+2").1 =
      [Event.promptBuilt (create_prompt "2+2"),
       Event.cloudStart 10, Event.cloudEnd (10 + 4),
       Event.localStart (10 + 4), Event.localEnd (10 + 4 + 6)] ∧
     (submit_handler (fun _ => Except.error "cloud down")
        (fun _ => Except.error "local down") 4 6 10 "2+2").2 =
      some (get_gpt4_response (fun _ => Except.error "cloud down") 4 (create_prompt "2+2"),
            get_tinyllama_response (fun _ => Except.error "local down") 6 (create_prompt "2+2"))) :=
  ⟨by decide, c4_sequential_invocation (fun _ => Except.error "cloud down")
    (fun _ => Except.error "local down") 4 6 10 "2+2" (by decide)⟩

/-- C5: for every submitted nonempty question the orchestration builds exactly
one prompt, that prompt is create_prompt of the question, and both adapter
results are produced unconditionally, each from that identical prompt, for any
transports including failing ones. -/
theorem c5_orchestration_total
    (ct : CloudRequest → Except String CloudResponse)
    (lt : LocalRequest → Except String OllamaResponse)
    (cd ld now : Nat) (q : String) (hq : q ≠ "") :
    (submit_handler ct lt cd ld now q).1.countP Event.isPromptBuilt = 1 ∧
    Event.promptBuilt (create_prompt q) ∈ (submit_handler ct lt cd ld now q).1 ∧
    (submit_handler ct lt cd ld now q).2 =
      some (get_gpt4_response ct cd (create_prompt q),
            get_tinyllama_response lt ld (create_prompt q)) := by
  simp [submit_handler, hq, List.countP_cons, Event.isPromptBuilt]

/-- Witness for C5: a concrete run with one succeeding and one failing
transport. -/
theorem c5_witness :
    ("1+1" : String) ≠ "" ∧
    ((submit_handler (fun _ => Except.ok ⟨[⟨⟨"2"⟩⟩]⟩)
        (fun _ => Except.error "local down") 1 2 0 "1+1").1.countP Event.isPromptBuilt = 1 ∧
     Event.promptBuilt (create_prompt "1+1") ∈
       (submit_handler (fun _ => Except.ok ⟨[⟨⟨"2"⟩⟩]⟩)
         (fun _ => Except.error "local down") 1 2 0 "1+1").1 ∧
     (submit_handler (fun _ => Except.ok ⟨[⟨⟨"2"⟩⟩]⟩)
        (fun _ => Except.error "local down") 1 2 0 "1+1").2 =
      some (get_gpt4_response (fun _ => Except.ok ⟨[⟨⟨"2"⟩⟩]⟩) 1 (create_prompt "1+1"),
            get_tinyllama_response (fun _ => Except.error "local down") 2 (create_prompt "1+1"))) :=
  ⟨by decide, c5_orchestration_total (fun _ => Except.ok ⟨[⟨⟨"2"⟩⟩]⟩)
    (fun _ => Except.error "local down") 1 2 0 "1+1" (by decide)⟩

/-- C6 counterexample: the adapters return only a (text, elapsed) pair and
carry no structured success flag; here a failing cloud invocation and a
successful zero-second cloud invocation produce byte-identical outputs, so no
consumer of the returned value can distinguish failure from a fast success. -/
theorem c6_counterexample :
    get_gpt4_response (fun _ => Except.error "connection refused") 7 "What is 2+2?" =
    get_gpt4_response
      (fun _ => Except.ok ⟨[⟨⟨"Error: connection refused"⟩⟩]⟩) 0 "What is 2+2?" := rfl

/-- C6 amended: adapter invocations return only the pair of response text and
elapsed seconds, with no succeeded flag; a transport failure with description
e is indistinguishable from a zero-second success whose text is
"Error: " ++ e — for every prompt and both adapters the outputs coincide. -/
theorem c6_no_success_flag (prompt e : String) (cd ld : Nat) :
    get_gpt4_response (fun _ => Except.error e) cd prompt =
      get_gpt4_response (fun _ => Except.ok ⟨[⟨⟨"Error: " ++ e⟩⟩]⟩) 0 prompt ∧
    get_tinyllama_response (fun _ => Except.error e) ld prompt =
      get_tinyllama_response (fun _ => Except.ok ⟨"Error: " ++ e⟩) 0 prompt :=
  ⟨rfl, rfl⟩

/-- C7: for every prompt and every transport, the cloud adapter consults its
transport at exactly the fixed request described by the spec (one user-role
message with the prompt, temperature 0, max output tokens 2000), the local
adapter consults its transport at exactly the spec-described fixed request
(max output tokens 1000, top-k 20, top-p 0.9, repetition penalty 1.1,
temperature 0.7, the three stop sequences), and each returned pair is entirely
determined by the transport value at that request. -/
theorem c7_fixed_request_parameters
    (ct : CloudRequest → Except String CloudResponse)
    (lt : LocalRequest → Except String OllamaResponse)
    (cd ld : Nat) (prompt : String) :
    get_gpt4_response ct cd prompt = cloudOutcome cd (ct (specCloudRequest prompt)) ∧
    get_tinyllama_response lt ld prompt = localOutcome ld (lt (specLocalRequest prompt)) :=
  ⟨rfl, rfl⟩

set_option maxRecDepth 100000 in
/-- C8: create_prompt is total over strings; on the empty question it does not
fail and still returns the fixed instructional scaffolding, containing each of
the four numbered requirement lines. -/
theorem c8_empty_question_scaffolding :
    create_prompt "" =
      "Solve this mathematics question step by step.\n\n    QUESTION:\n    \n\n    REQUIREMENTS:\n    1. Analyze the question carefully\n    2. Show ALL mathematical steps clearly\n    3. Calculate values precisely\n    4. Evaluate each step systematically\n\n    Your complete solution:" ∧
    ("1. Analyze the question carefully" : String).data <:+: (create_prompt "").data ∧
    ("2. Show ALL mathematical steps clearly" : String).data <:+: (create_prompt "").data ∧
    ("3. Calculate values precisely" : String).data <:+: (create_prompt "").data ∧
    ("4. Evaluate each step systematically" : String).data <:+: (create_prompt "").data := by
  refine ⟨rfl, ?_, ?_, ?_, ?_⟩ <;> decide

/-- C9: on an empty submitted question the handler surfaces a warning and
invokes neither the prompt builder nor either adapter: the trace is exactly
the warning event and no results are produced. -/
theorem c9_empty_question_blocked
    (ct : CloudRequest → Except String CloudResponse)
    (lt : LocalRequest → Except String OllamaResponse)
    (cd ld now : Nat) :
    submit_handler ct lt cd ld now "" = ([Event.warningShown], none) := by
  simp [submit_handler]

/-- C10: the submission guard rejects exactly the empty string: a question
made only of whitespace characters passes the guard, the full comparison flow
runs — both adapters are invoked on a prompt built from the whitespace-only
question — and no warning is shown. -/
theorem c10_whitespace_passes_guard
    (ct : CloudRequest → Except String CloudResponse)
    (lt : LocalRequest → Except String OllamaResponse)
    (cd ld now : Nat) (q : String)
    (hq : q ≠ "") (_hw : ∀ c ∈ q.data, c.isWhitespace) :
    (submit_handler ct lt cd ld now q).2 =
      some (get_gpt4_response ct cd (create_prompt q),
            get_tinyllama_response lt ld (create_prompt q)) ∧
    Event.warningShown ∉ (submit_handler ct lt cd ld now q).1 := by
  simp [submit_handler, hq]

/-- Witness for C10: the single-space question is nonempty, all its characters
are whitespace, and the flow runs with no warning. -/
theorem c10_witness :
    (" " : String) ≠ "" ∧
    ((submit_handler (fun _ => Except.error "no cloud")
        (fun _ => Except.error "no local") 1 2 0 " ").2 =
      some (get_gpt4_response (fun _ => Except.error "no cloud") 1 (create_prompt " "),
            get_tinyllama_response (fun _ => Except.error "no local") 2 (create_prompt " ")) ∧
     Event.warningShown ∉
       (submit_handler (fun _ => Except.error "no cloud")
         (fun _ => Except.error "no local") 1 2 0 " ").1) :=
  ⟨by decide, c10_whitespace_passes_guard (fun _ => Except.error "no cloud")
    (fun _ => Except.error "no local") 1 2 0 " " (by decide) (by decide)⟩

end UiComparison
